import Mathlib

/-!
Verification of the sse-websocket-proxy repository: a shallow embedding of
the wire-protocol codecs (`messages-protocol.ts`, `sse-protocol.ts`), the
proxy request handlers (`proxy/src/index.ts`, class `SSEWebSocketProxy`)
and the client state machine (`SimulatedWebsocket`), together with
theorems settling the frozen claims about them.

Conventions:
- JavaScript values flowing through `JSON.parse`/`JSON.stringify` are
  modelled by the inductive `JsonV`; the textual JSON layer is modelled by
  `Option JsonV` where `none` stands for input that `JSON.parse` rejects.
- Byte buffers (`Uint8Array`, `Buffer`) are `List (Fin 256)`.
- Machine states use the numeric WebSocket ready states
  0 = CONNECTING, 1 = OPEN, 2 = CLOSING, 3 = CLOSED, as in the source.
-/

/-- Model of a parsed JSON value (the result of `JSON.parse`).
Numbers are restricted to integers: every number appearing in this
protocol (close codes, timestamps, counts) is integral. -/
inductive JsonV where
  | null : JsonV
  | bool (b : Bool) : JsonV
  | num (n : Int) : JsonV
  | str (s : String) : JsonV
  | arr (xs : List JsonV) : JsonV
  | obj (fields : List (String × JsonV)) : JsonV

/-- Property access `v[k]` on a JS object: only objects have fields, and
`JSON.parse` keeps the last binding of a duplicated key. -/
def JsonV.getField : JsonV → String → Option JsonV
  | .obj fields, k => fields.foldl (fun acc kv => if kv.1 = k then some kv.2 else acc) none
  | _, _ => none

/-- The base64 alphabet, index i holding the digit of value i
(RFC 4648, used identically by `btoa`/`atob` and `Buffer`'s base64 codec). -/
def b64chars : List Char :=
  "ABCDEFGHIJKLMNOPQRSTUVWXYZabcdefghijklmnopqrstuvwxyz0123456789+/".toList

/-- The base64 digit for a 6-bit value. -/
def sextetChar (n : Nat) : Char := b64chars.getD n 'A'

/-- The 6-bit value of a base64 digit (only applied to alphabet characters). -/
def sextetVal (c : Char) : Nat := b64chars.indexOf c

/-- Whether a character belongs to the base64 alphabet. -/
def isBase64Char (c : Char) : Bool := b64chars.contains c

/-- Standard base64 encoding of a byte sequence, with padding: the shared
model of `Buffer.from(bytes).toString('base64')` (proxy side) and of
`btoa` applied to the `String.fromCharCode` expansion of a `Uint8Array`
(client side, `encodeBinaryMessageRequestBrowser`): both produce the
RFC 4648 encoding of the bytes. -/
def base64Encode : List (Fin 256) → List Char
  | [] => []
  | [a] => [sextetChar (a.val / 4), sextetChar (a.val % 4 * 16), '=', '=']
  | [a, b] => [sextetChar (a.val / 4), sextetChar (a.val % 4 * 16 + b.val / 16),
      sextetChar (b.val % 16 * 4), '=']
  | a :: b :: c :: rest =>
      sextetChar (a.val / 4) :: sextetChar (a.val % 4 * 16 + b.val / 16) ::
      sextetChar (b.val % 16 * 4 + c.val / 64) :: sextetChar (c.val % 64) ::
      base64Encode rest

/-- Decoding of a base64 digit stream (invalid characters and padding have
already been discarded): groups of four digits give three bytes, a final
group of three gives two bytes, of two gives one byte, and a lone trailing
digit yields nothing, as in Node's forgiving base64 decoder. -/
def base64DecodeChars : List Char → List Nat
  | c1 :: c2 :: c3 :: c4 :: rest =>
      (sextetVal c1 * 4 + sextetVal c2 / 16) ::
      (sextetVal c2 % 16 * 16 + sextetVal c3 / 4) ::
      (sextetVal c3 % 4 * 64 + sextetVal c4) :: base64DecodeChars rest
  | [c1, c2] => [sextetVal c1 * 4 + sextetVal c2 / 16]
  | [c1, c2, c3] => [sextetVal c1 * 4 + sextetVal c2 / 16,
      sextetVal c2 % 16 * 16 + sextetVal c3 / 4]
  | _ => []

/-- Base64 encoding of bytes as a string. -/
def base64EncodeString (bytes : List (Fin 256)) : String :=
  String.mk (base64Encode bytes)

/-- Base64 decoding of a string back to bytes: characters outside the
alphabet (including the padding '=') are discarded, then digits are
decoded in groups. This is the shared model of `Buffer.from(s, 'base64')`
(proxy side, `decodeBinaryData`) and of `atob` followed by per-character
`charCodeAt` (client side, `decodeBinaryDataBrowser`); the two agree on
every well-formed base64 string. -/
def base64DecodeString (s : String) : List Nat :=
  base64DecodeChars (s.toList.filter isBase64Char)

/-!
Wire protocol: client→proxy POST bodies (`proxy/src/messages-protocol.ts`).
-/

/-- A validated client→proxy message body (`MessageRequest`). -/
inductive MessageRequest where
  | text (data : String) : MessageRequest
  | binary (data : String) : MessageRequest

/-- Source `encodeTextMessageRequest`: the JSON object the client posts
for a text payload (the `JSON.stringify` layer is the `JsonV` model). -/
def encodeTextMessageRequest (data : String) : JsonV :=
  .obj [("type", .str "text"), ("data", .str data)]

/-- Source `encodeBinaryMessageRequest` (proxy-side helper): base64-encode
the bytes with `Buffer` and wrap them in a binary message object. -/
def encodeBinaryMessageRequest (binaryData : List (Fin 256)) : JsonV :=
  .obj [("type", .str "binary"), ("data", .str (base64EncodeString binaryData))]

/-- Source `SimulatedWebsocket.encodeBinaryMessageRequestBrowser`:
`String.fromCharCode` over the bytes followed by `btoa` — the browser
route to the same RFC 4648 base64 — wrapped in the same object shape. -/
def encodeBinaryMessageRequestBrowser (uint8Array : List (Fin 256)) : JsonV :=
  .obj [("type", .str "binary"), ("data", .str (base64EncodeString uint8Array))]

/-- Source `decodeMessageRequest`: parse and validate a POST body.
The argument is the `JSON.parse` result (`none` when parsing throws).
Falsy or non-object parses, objects without a string `type`, wrong-typed
`data` fields and unknown `type` tags are all rejected. -/
def decodeMessageRequest (jsonData : Option JsonV) : Except String MessageRequest :=
  match jsonData with
  | none => .error "Failed to decode message request: invalid JSON"
  | some parsed =>
    match parsed.getField "type" with
    | some (.str t) =>
      if t = "text" then
        match parsed.getField "data" with
        | some (.str d) => .ok (.text d)
        | _ => .error "Text message data must be a string"
      else if t = "binary" then
        match parsed.getField "data" with
        | some (.str d) => .ok (.binary d)
        | _ => .error "Binary message data must be a base64 string"
      else .error ("Unknown message type: " ++ t)
    | _ => .error "Invalid message request format"

/-- Source `decodeBinaryData`: `Buffer.from(base64Data, 'base64')`, which
never throws and ignores characters outside the alphabet. -/
def decodeBinaryData (base64Data : String) : List Nat :=
  base64DecodeString base64Data

/-- Source type guard `isTextMessageRequest`. -/
def isTextMessageRequest : MessageRequest → Bool
  | .text _ => true
  | .binary _ => false

/-- Source type guard `isBinaryMessageRequest`. -/
def isBinaryMessageRequest : MessageRequest → Bool
  | .text _ => false
  | .binary _ => true

/-!
Wire protocol: proxy→client SSE frames (`proxy/src/sse-protocol.ts`, with
the `session-secret` frame of the protocol version consumed by the current
`SimulatedWebsocket`).
-/

/-- A decoded proxy→client SSE frame as the client classifies it: the
known type tags of the `SSEMessage` union, plus `unknown` for a frame
whose `type` is a string outside the union — `decodeSSEMessage` accepts
such frames (it validates only that `type` is a string) and the client's
switch falls through to a `console.warn`. -/
inductive SSEMessage where
  | sessionSecret (secret : String) : SSEMessage
  | websocketConnected (sessionId : String) (timestamp : Int) : SSEMessage
  | message (data : String) (timestamp : Int) : SSEMessage
  | binaryMessage (data : String) (timestamp : Int) : SSEMessage
  | websocketError (error : String) (timestamp : Int) : SSEMessage
  | websocketClosed (code : Int) (reason : String) (wasClean : Bool) (timestamp : Int) : SSEMessage
  | ping (timestamp : Int) : SSEMessage
  | unknown (tag : String) : SSEMessage

/-- Source `encodeWebSocketConnectedMessage`. -/
def encodeWebSocketConnectedMessage (sessionId : String) (timestamp : Int) : SSEMessage :=
  .websocketConnected sessionId timestamp

/-- Source `encodeDataMessage`. -/
def encodeDataMessage (data : String) (timestamp : Int) : SSEMessage :=
  .message data timestamp

/-- Source `encodeBinaryDataMessage` (the proxy passes base64 text). -/
def encodeBinaryDataMessage (base64Data : String) (timestamp : Int) : SSEMessage :=
  .binaryMessage base64Data timestamp

/-- Source `encodeWebSocketErrorMessage`. -/
def encodeWebSocketErrorMessage (error : String) (timestamp : Int) : SSEMessage :=
  .websocketError error timestamp

/-- Source `encodeWebSocketClosedMessage`. -/
def encodeWebSocketClosedMessage (code : Int) (reason : String) (wasClean : Bool)
    (timestamp : Int) : SSEMessage :=
  .websocketClosed code reason wasClean timestamp

/-- Source `decodeSSEMessage` over the parsed JSON (`none` = `JSON.parse`
threw): the only validation is that the value is a truthy object whose
`type` field is a string; everything else is passed through by the
`as SSEMessage` cast. -/
def decodeSSEMessage (data : Option JsonV) : Except String JsonV :=
  match data with
  | none => .error "Failed to decode SSE message: invalid JSON"
  | some parsed =>
    match parsed.getField "type" with
    | some (.str _) => .ok parsed
    | _ => .error "Failed to decode SSE message: Invalid SSE message format"

/-- Field read through the unchecked `as SSEMessage` cast: a missing or
wrong-typed field surfaces in JS as `undefined`; the default argument
stands in for that `undefined` where the client would consume it. -/
def JsonV.getStr (v : JsonV) (k : String) (dflt : String := "") : String :=
  match v.getField k with
  | some (.str s) => s
  | _ => dflt

/-- Integer field read through the cast, `0` standing in for `undefined`. -/
def JsonV.getInt (v : JsonV) (k : String) : Int :=
  match v.getField k with
  | some (.num n) => n
  | _ => 0

/-- Boolean field read through the cast, `false` standing in for `undefined`. -/
def JsonV.getBool (v : JsonV) (k : String) : Bool :=
  match v.getField k with
  | some (.bool b) => b
  | _ => false

/-- Classification of a decoded frame by its `type` tag, mirroring the
switch in `SimulatedWebsocket.handleProxyMessage`. -/
def classifySSE (v : JsonV) : SSEMessage :=
  let t := v.getStr "type"
  if t = "session-secret" then .sessionSecret (v.getStr "secret")
  else if t = "websocket-connected" then
    .websocketConnected (v.getStr "sessionId") (v.getInt "timestamp")
  else if t = "message" then .message (v.getStr "data") (v.getInt "timestamp")
  else if t = "binary-message" then .binaryMessage (v.getStr "data") (v.getInt "timestamp")
  else if t = "websocket-error" then .websocketError (v.getStr "error") (v.getInt "timestamp")
  else if t = "websocket-closed" then
    .websocketClosed (v.getInt "code") (v.getStr "reason") (v.getBool "wasClean")
      (v.getInt "timestamp")
  else if t = "ping" then .ping (v.getInt "timestamp")
  else .unknown t

/-!
Client state machine (`SimulatedWebsocket`, the current client package).
The mutable fields the handlers touch are gathered in `ClientState`;
`sessionId` is omitted because `connect()` assigns it synchronously in the
constructor before any handler can run, so it is never `null` afterwards.
`eventSourceLive` models `this.eventSource` being non-null and not closed:
`EventSource` delivers `onmessage`/`onerror` callbacks only while live.
-/

/-- The WebSocket-visible payload of a message event. -/
inductive MessageData where
  | text (data : String) : MessageData
  | binary (bytes : List Nat) : MessageData

/-- An event dispatched on the `SimulatedWebsocket` (both through the
listener list and the dedicated `onX` slot, which observe the same
payload). -/
inductive ClientEvent where
  | openEvent : ClientEvent
  | messageEvent (data : MessageData) : ClientEvent
  | errorEvent (message : String) : ClientEvent
  | closeEvent (code : Int) (reason : String) (wasClean : Bool) : ClientEvent

/-- The mutable state of one `SimulatedWebsocket` instance. -/
structure ClientState where
  readyState : Nat
  sessionSecret : Option String
  userInitiatedClose : Bool
  isWebSocketConnected : Bool
  eventSourceLive : Bool
  pageUnloading : Bool

/-- State after the constructor and `connect()`: CONNECTING, no secret,
stream opened. -/
def initClientState : ClientState :=
  { readyState := 0, sessionSecret := none, userInitiatedClose := false,
    isWebSocketConnected := false, eventSourceLive := true, pageUnloading := false }

/-- Source `SimulatedWebsocket.handleError`: mark CLOSED, drop the
stream, dispatch an error event (never a close event). -/
def handleError (error : String) (s : ClientState) : ClientState × List ClientEvent :=
  ({ s with readyState := 3, eventSourceLive := false }, [.errorEvent error])

/-- Source `SimulatedWebsocket.handleClose`: if already CLOSED do
nothing; otherwise mark CLOSED, drop the stream and dispatch one close
event. -/
def handleClose (code : Int) (reason : String) (wasClean : Bool) (s : ClientState) :
    ClientState × List ClientEvent :=
  if s.readyState = 3 then (s, [])
  else ({ s with readyState := 3, eventSourceLive := false },
    [.closeEvent code reason wasClean])

/-- Source `SimulatedWebsocket.decodeBinaryDataBrowser`: `atob` plus
per-character `charCodeAt`, recovering the bytes from base64. -/
def decodeBinaryDataBrowser (base64Data : String) : List Nat :=
  base64DecodeString base64Data

/-- Source `SimulatedWebsocket.handleProxyMessage`: the switch over the
decoded frame's type. An unknown tag only logs a console warning. -/
def handleProxyMessage (message : SSEMessage) (s : ClientState) :
    ClientState × List ClientEvent :=
  match message with
  | .sessionSecret secret => ({ s with sessionSecret := some secret }, [])
  | .websocketConnected _ _ =>
      ({ s with isWebSocketConnected := true, readyState := 1 }, [.openEvent])
  | .message data _ => (s, [.messageEvent (.text data)])
  | .binaryMessage data _ =>
      (s, [.messageEvent (.binary (decodeBinaryDataBrowser data))])
  | .websocketError error _ => handleError error s
  | .websocketClosed code reason wasClean _ => handleClose code reason wasClean s
  | .ping _ => (s, [])
  | .unknown _ => (s, [])

/-- The `eventSource.onmessage` callback: decode the raw event data; a
decoding failure becomes an error event, success is handed to
`handleProxyMessage` after classification. -/
def onSseData (raw : Option JsonV) (s : ClientState) : ClientState × List ClientEvent :=
  match decodeSSEMessage raw with
  | .error e => handleError ("Malformed data from proxy: " ++ e) s
  | .ok v => handleProxyMessage (classifySSE v) s

/-- The `code || 1000` default applied inside `close()` (`0` is falsy in
JS, though a zero code never reaches this point because validation
rejects it). -/
def jsCloseCodeOr1000 : Option Int → Int
  | none => 1000
  | some c => if c = 0 then 1000 else c

/-- Source `SimulatedWebsocket.close(code?, reason?)` together with the
synchronous prefix of `sendCloseRequest`:
1. no-op when already CLOSING or CLOSED (before any validation);
2. synchronous `DOMException` for an invalid code, with no state change;
3. mark `userInitiatedClose` and CLOSING;
4. backend link not yet up: synthesize the local clean close;
5. otherwise post the close request — with no session secret that
   degenerates to an immediate abnormal close, else the state stays
   CLOSING until the response (a later `closeResult` input) arrives. -/
def closeImpl (code : Option Int) (reason : Option String) (s : ClientState) :
    Except String (ClientState × List ClientEvent) :=
  if s.readyState = 3 ∨ s.readyState = 2 then .ok (s, [])
  else
    match code with
    | some c =>
      if c = 1001 then .error "invalid code"
      else if c ≠ 1000 ∧ (c < 3000 ∨ c > 4999) then .error "invalid code"
      else closeValidated code reason s
    | none => closeValidated code reason s
where
  /-- The body of `close()` after validation has passed. -/
  closeValidated (code : Option Int) (reason : Option String) (s : ClientState) :
      Except String (ClientState × List ClientEvent) :=
    let s1 := { s with userInitiatedClose := true, readyState := 2 }
    if !s.isWebSocketConnected then
      .ok (handleClose (jsCloseCodeOr1000 code) (reason.getD "") true s1)
    else
      match s.sessionSecret with
      | none => .ok (handleClose 1006 "No session secret available" false s1)
      | some _ => .ok (s1, [])

/-- One asynchronous stimulus delivered to a `SimulatedWebsocket`
instance: a decoded SSE frame, a user API call, the resolution of a
pending close POST (response, HTTP error, network error or the client's
own 5-second timeout — each reaches `handleClose`), the rejection of a
message POST, an `EventSource` error, or the page starting to unload. -/
inductive ClientInput where
  | frame (m : SSEMessage) : ClientInput
  | userClose (code : Option Int) (reason : Option String) : ClientInput
  | userSend (data : String) : ClientInput
  | closeResult (code : Int) (reason : String) (wasClean : Bool) : ClientInput
  | sendFailed (message : String) : ClientInput
  | sseError : ClientInput
  | pageUnload : ClientInput

/-- Small-step semantics of the client: how one stimulus transforms the
state and which events it dispatches. Frames and stream errors are gated
on the `EventSource` being live; a thrown `DOMException` from `close()`
or `send()` propagates to the caller and leaves the machine unchanged. -/
def step (s : ClientState) (i : ClientInput) : ClientState × List ClientEvent :=
  match i with
  | .frame m => if s.eventSourceLive then handleProxyMessage m s else (s, [])
  | .userClose code reason =>
      match closeImpl code reason s with
      | .ok out => out
      | .error _ => (s, [])
  | .userSend _ =>
      if s.readyState ≠ 1 then (s, [])
      else
        match s.sessionSecret with
        | none => handleClose 1006 "No session secret available" false s
        | some _ => (s, [])
  | .closeResult code reason wasClean => handleClose code reason wasClean s
  | .sendFailed message =>
      handleClose 1006 ("Failed to send message: " ++ message) false s
  | .sseError =>
      if s.eventSourceLive then
        if s.userInitiatedClose then (s, [])
        else if s.pageUnloading then (s, [])
        else if s.readyState = 1 then handleClose 1006 "SSE connection error" false s
        else handleError "SSE connection error" s
      else (s, [])
  | .pageUnload => ({ s with pageUnloading := true, eventSourceLive := false }, [])

/-- Run a sequence of stimuli from a state, accumulating dispatched
events in order. -/
def run (s : ClientState) : List ClientInput → ClientState × List ClientEvent
  | [] => (s, [])
  | i :: rest =>
      let (s', evs) := step s i
      let (s'', evs') := run s' rest
      (s'', evs ++ evs')

/-- How many close events a dispatch list contains. -/
def countCloseEvents (evs : List ClientEvent) : Nat :=
  evs.countP fun e => match e with
    | .closeEvent _ _ _ => true
    | _ => false

/-!
Proxy (`proxy/src/index.ts`, class `SSEWebSocketProxy`, the
`allowedHosts` configuration generation cited by the claims).
URL strings are modelled by their parse result: `URLParts` is the
(protocol, hostname, port) triple of a successfully constructed
`new URL(...)`; an `Option URLParts` is `none` when the constructor
throws, which the source catches.
-/

/-- The components of a parsed URL that the allowlist consults.
`protocol` keeps the trailing colon (as `url.protocol` does) and `port`
is the string form, empty for a default port (as `url.port` is). -/
structure URLParts where
  protocol : String
  hostname : String
  port : String

/-- The proxy configuration fields the handlers read. Allowed hosts
appear as their parse results: the source re-parses each entry with
`new URL` and skips entries whose parse throws (`none` here). -/
structure ProxyConfig where
  allowedHosts : List (Option URLParts)
  allowAnyLocalhostPort : Bool
  dangerouslyAllowAnyHost : Bool

/-- Scheme-class normalization inside `isBackendAllowed`: strip the
colon, then identify ws with http and wss with https. -/
def normalizeProtocol (protocol : String) : String :=
  let p := protocol.replace ":" ""
  if p = "ws" then "http" else if p = "wss" then "https" else p

/-- The `host[:port]` rendering used for exact matching. -/
def hostWithPortOf (u : URLParts) : String :=
  if u.port ≠ "" then u.hostname ++ ":" ++ u.port else u.hostname

/-- Source `SSEWebSocketProxy.isBackendAllowed`: the requested backend
(`none` when `new URL(backendUrl)` throws) is allowed when the unsafe
override is set, when it is loopback and any localhost port is allowed,
or when some parseable allow-list entry matches it by host (with or
without port) under scheme-class normalization. -/
def isBackendAllowed (config : ProxyConfig) (backend : Option URLParts) : Bool :=
  match backend with
  | none => false
  | some url =>
    if config.dangerouslyAllowAnyHost then true
    else if config.allowAnyLocalhostPort ∧
        (url.hostname = "localhost" ∨ url.hostname = "127.0.0.1" ∨ url.hostname = "::1") then
      true
    else
      config.allowedHosts.any fun allowedHost =>
        match allowedHost with
        | none => false
        | some allowedUrl =>
          (hostWithPortOf url = hostWithPortOf allowedUrl ∨
            url.hostname = allowedUrl.hostname) ∧
          normalizeProtocol url.protocol = normalizeProtocol allowedUrl.protocol

/-- The per-session record the proxy registry stores (the `Client`
interface, with the backend `ws` socket reduced to the fields the
handlers consult). -/
structure ProxyClient where
  wsReadyState : Nat
  lastActivity : Nat

/-- The registry `this.clients`, keyed by session id. -/
def Registry := List (String × ProxyClient)

/-- `Map.get`: the record stored under a session id, if any. -/
def Registry.lookup (clients : Registry) (sessionId : String) : Option ProxyClient :=
  match clients with
  | [] => none
  | (k, v) :: rest => if k = sessionId then some v else Registry.lookup rest sessionId

/-- `Map.set` of an updated record under an existing key. -/
def Registry.update (clients : Registry) (sessionId : String) (c : ProxyClient) : Registry :=
  match clients with
  | [] => []
  | (k, v) :: rest =>
      if k = sessionId then (k, c) :: rest
      else (k, v) :: Registry.update rest sessionId c

/-- Outcome of a stream-open request (`handleSSEConnection`): the HTTP
status it settles on, the registry afterwards, and whether a backend
`WsWebSocket` was constructed. -/
structure SSEOpenResult where
  status : Nat
  clients : Registry
  backendConnectionCreated : Bool

/-- Source `SSEWebSocketProxy.handleSSEConnection` (decision structure):
missing `backend` query parameter → 400; backend not allowed → 403; both
before any session is registered or backend socket constructed.
Otherwise the SSE stream starts (200), the backend socket is created and
the session is registered. The `backendParam` is `none` when the query
parameter is absent, and carries the parse result of the given URL
otherwise; `newClient` stands for the fresh `Client` record whose socket
was just created. -/
def handleSSEConnection (config : ProxyConfig) (clients : Registry)
    (sessionId : String) (backendParam : Option (Option URLParts))
    (newClient : ProxyClient) : SSEOpenResult :=
  match backendParam with
  | none => { status := 400, clients := clients, backendConnectionCreated := false }
  | some backendUrl =>
    if !isBackendAllowed config backendUrl then
      { status := 403, clients := clients, backendConnectionCreated := false }
    else
      { status := 200, clients := (sessionId, newClient) :: clients,
        backendConnectionCreated := true }

/-- What a send request forwarded to the backend socket. -/
inductive ForwardedData where
  | text (data : String) : ForwardedData
  | binary (bytes : List Nat) : ForwardedData

/-- Outcome of a `/messages` POST. -/
structure SendResult where
  status : Nat
  forwarded : Option ForwardedData
  clients : Registry

/-- Source `SSEWebSocketProxy.handleMessageSend`: missing header → 400;
unknown session → 404; backend socket not OPEN → 503; body failing
`decodeMessageRequest` → 400 — all without forwarding anything. A valid
text or binary frame is forwarded to the backend socket, `lastActivity`
is refreshed, and the response is 200. `body` is the `JSON.parse` result
of the request body (`none` when parsing throws). -/
def handleMessageSend (clients : Registry) (sessionIdHeader : Option String)
    (body : Option JsonV) (now : Nat) : SendResult :=
  match sessionIdHeader with
  | none => { status := 400, forwarded := none, clients := clients }
  | some sessionId =>
    match clients.lookup sessionId with
    | none => { status := 404, forwarded := none, clients := clients }
    | some client =>
      if client.wsReadyState ≠ 1 then
        { status := 503, forwarded := none, clients := clients }
      else
        match decodeMessageRequest body with
        | .error _ => { status := 400, forwarded := none, clients := clients }
        | .ok (.text d) =>
            { status := 200, forwarded := some (.text d),
              clients := clients.update sessionId { client with lastActivity := now } }
        | .ok (.binary d) =>
            { status := 200, forwarded := some (.binary (decodeBinaryData d)),
              clients := clients.update sessionId { client with lastActivity := now } }

/-- The action `handleCloseRequest` takes on the backend socket after
registering its listeners: terminate while CONNECTING, close with the
requested code while OPEN, and nothing while CLOSING or CLOSED. -/
inductive WsCloseAction where
  | terminate : WsCloseAction
  | closeWith (code : Int) (reason : String) : WsCloseAction
  | noAction : WsCloseAction

/-- The JSON body of a close response. -/
structure CloseResponseBody where
  code : Int
  reason : String
  wasClean : Bool

/-- Source `handleCloseRequest`, socket action: the state dispatch at the
bottom of the handler. -/
def closeRequestAction (wsReadyState : Nat) (code : Int) (reason : String) : WsCloseAction :=
  if wsReadyState = 0 then .terminate
  else if wsReadyState = 1 then .closeWith code reason
  else .noAction

/-- Source `handleCloseRequest`, response resolution: the one-shot race
between the socket's next `close` event and the 5-second timeout.
`arrival` is the close event delivered before the timeout, if any
(`none` means the timeout fired first): the former answers with the
authoritative code and `wasClean = code ∈ [1000, 1003]`, the latter with
the synthetic `(1006, "Close timeout", wasClean := false)`. The
`responseSent` flag makes whichever fires first the only response. -/
def closeRequestResponse (arrival : Option (Int × String)) : CloseResponseBody :=
  match arrival with
  | some (actualCode, actualReason) =>
      { code := actualCode, reason := actualReason,
        wasClean := decide (1000 ≤ actualCode ∧ actualCode ≤ 1003) }
  | none => { code := 1006, reason := "Close timeout", wasClean := false }

/-- Outcome of a `/close` POST. -/
structure CloseRequestResult where
  status : Nat
  response : Option CloseResponseBody
  action : WsCloseAction

/-- Source `SSEWebSocketProxy.handleCloseRequest` plus the surrounding
`handleRequestWithSession`: missing header → 400, unknown session → 404,
unparsable JSON body → 400 (no socket action in any of these); otherwise
destructure `code = 1000` and `reason = ''` defaults from the body, act
on the socket per its state, and answer 200 with the resolved close
info. -/
def handleCloseRequest (clients : Registry) (sessionIdHeader : Option String)
    (body : Option JsonV) (arrival : Option (Int × String)) : CloseRequestResult :=
  match sessionIdHeader with
  | none => { status := 400, response := none, action := .noAction }
  | some sessionId =>
    match clients.lookup sessionId with
    | none => { status := 404, response := none, action := .noAction }
    | some client =>
      match body with
      | none => { status := 400, response := none, action := .noAction }
      | some data =>
        let code := match data.getField "code" with
          | some (.num n) => n
          | _ => 1000
        let reason := data.getStr "reason"
        { status := 200, response := some (closeRequestResponse arrival),
          action := closeRequestAction client.wsReadyState code reason }

/-- Source `getWebSocketState`: the diagnostic name of a socket state. -/
def getWebSocketState (wsReadyState : Nat) : String :=
  if wsReadyState = 0 then "connecting"
  else if wsReadyState = 1 then "open"
  else if wsReadyState = 2 then "closing"
  else if wsReadyState = 3 then "closed"
  else "unknown"

/-- One entry of the per-session diagnostics in a health response. -/
structure HealthConnInfo where
  sessionId : String
  websocketState : String
  lastActivity : Nat

/-- The health response body; `Option` fields model the presence of the
corresponding JSON keys in the answer. -/
structure HealthResponse where
  status : String
  activeConnections : Option Nat
  connections : Option (List HealthConnInfo)
  uptime : Option Nat

/-- Source `SSEWebSocketProxy.handleHealthCheck`: the request (in
particular any `secret` query parameter the caller may supply) is
ignored — the parameter is named `_req` — and the response always
carries the session count, the per-session diagnostics and the uptime. -/
def handleHealthCheck (secretParam : Option String) (clients : Registry)
    (uptimeNow : Nat) : HealthResponse :=
  let _ := secretParam
  { status := "healthy",
    activeConnections := some clients.length,
    connections := some (clients.map fun kv =>
      { sessionId := kv.1, websocketState := getWebSocketState kv.2.wsReadyState,
        lastActivity := kv.2.lastActivity }),
    uptime := some uptimeNow }

/-- Source `setupWebSocketHandlers`, backend `close` listener: the frame
relayed to the client computes `wasClean = code ∈ [1000, 1003]`. -/
def backendCloseFrame (code : Int) (reason : String) (timestamp : Int) : SSEMessage :=
  encodeWebSocketClosedMessage code reason (decide (1000 ≤ code ∧ code ≤ 1003)) timestamp

/-- The cleanup invariant of the client machine: once CLOSED, the
`EventSource` has been closed and nulled (`handleClose` and `handleError`
both do so before or while entering CLOSED). -/
def ClientInv (s : ClientState) : Prop :=
  s.readyState = 3 → s.eventSourceLive = false

/-- How many close events a state can still produce: none once CLOSED. -/
def closeBudget (s : ClientState) : Nat :=
  if s.readyState = 3 then 0 else 1

/-- Ready states assigned by the client are always among 0..3. -/
def readyStateBound (s : ClientState) : Prop :=
  s.readyState ≤ 3

/-- Whether a stimulus is the arrival of a `websocket-connected` frame. -/
def isConnectedFrame : ClientInput → Bool
  | .frame (.websocketConnected _ _) => true
  | _ => false

/-- Whether a `close()` call threw a `DOMException`. -/
def isCloseError (r : Except String (ClientState × List ClientEvent)) : Bool :=
  match r with
  | .error _ => true
  | .ok _ => false

theorem sextet_roundtrip : ∀ n, n < 64 → sextetVal (sextetChar n) = n := by decide

theorem sextet_isBase64 : ∀ n, n < 64 → isBase64Char (sextetChar n) = true := by decide

theorem eq_isBase64Char_false : isBase64Char '=' = false := by decide

theorem filter_sextet_cons (n : Nat) (h : n < 64) (l : List Char) :
    (sextetChar n :: l).filter isBase64Char = sextetChar n :: l.filter isBase64Char := by
  simp [List.filter, sextet_isBase64 n h]

theorem filter_eq_cons (l : List Char) :
    ('=' :: l).filter isBase64Char = l.filter isBase64Char := by
  simp [List.filter, eq_isBase64Char_false]

/-- Base64 round trip: decoding the encoding of any byte sequence (after
stripping padding, as both real decoders do) returns exactly the original
bytes. -/
theorem base64_roundtrip (l : List (Fin 256)) :
    base64DecodeChars ((base64Encode l).filter isBase64Char) = l.map Fin.val := by
  induction l using base64Encode.induct with
  | case1 =>
      simp [base64Encode, base64DecodeChars]
  | case2 a =>
      have ha := a.isLt
      rw [base64Encode,
        filter_sextet_cons _ (by omega), filter_sextet_cons _ (by omega),
        filter_eq_cons, filter_eq_cons]
      simp only [List.filter_nil, base64DecodeChars, List.map]
      rw [sextet_roundtrip _ (by omega), sextet_roundtrip _ (by omega)]
      congr 1
      omega
  | case3 a b =>
      have ha := a.isLt
      have hb := b.isLt
      rw [base64Encode,
        filter_sextet_cons _ (by omega), filter_sextet_cons _ (by omega),
        filter_sextet_cons _ (by omega), filter_eq_cons]
      simp only [List.filter_nil, base64DecodeChars, List.map]
      rw [sextet_roundtrip _ (by omega), sextet_roundtrip _ (by omega),
        sextet_roundtrip _ (by omega)]
      simp only [List.cons.injEq, and_true]
      exact ⟨by omega, by omega⟩
  | case4 a b c rest ih =>
      have ha := a.isLt
      have hb := b.isLt
      have hc := c.isLt
      rw [base64Encode,
        filter_sextet_cons _ (by omega), filter_sextet_cons _ (by omega),
        filter_sextet_cons _ (by omega), filter_sextet_cons _ (by omega)]
      rw [base64DecodeChars, ih]
      rw [sextet_roundtrip _ (by omega), sextet_roundtrip _ (by omega),
        sextet_roundtrip _ (by omega), sextet_roundtrip _ (by omega)]
      simp only [List.map, List.cons.injEq, and_true]
      exact ⟨by omega, by omega, by omega⟩

/-!
Helper lemmas about the registry and the client machine.
-/

theorem Registry.lookup_update (clients : Registry) (sessionId : String)
    (c₀ c : ProxyClient) (h : clients.lookup sessionId = some c₀) :
    (clients.update sessionId c).lookup sessionId = some c := by
  induction clients with
  | nil => simp [Registry.lookup] at h
  | cons kv rest ih =>
      by_cases hk : kv.1 = sessionId
      · simp [Registry.lookup, Registry.update, hk]
      · simp only [Registry.lookup, Registry.update, hk, if_false] at h ⊢
        exact ih h

theorem clientInv_init : ClientInv initClientState := by
  intro h
  simp [initClientState] at h

theorem clientInv_handleClose (c : Int) (r : String) (w : Bool) (s : ClientState)
    (h : ClientInv s) : ClientInv (handleClose c r w s).1 := by
  unfold handleClose
  split
  · exact h
  · intro _; rfl

theorem clientInv_handleError (e : String) (s : ClientState) :
    ClientInv (handleError e s).1 := by
  intro _; rfl

theorem clientInv_closeValidated (code : Option Int) (reason : Option String)
    (s : ClientState) (out : ClientState × List ClientEvent)
    (h : closeImpl.closeValidated code reason s = .ok out) : ClientInv out.1 := by
  unfold closeImpl.closeValidated at h
  split at h
  · injection h with h'
    subst h'
    apply clientInv_handleClose
    intro h3
    simp at h3
  · split at h
    · injection h with h'
      subst h'
      apply clientInv_handleClose
      intro h3
      simp at h3
    · injection h with h'
      subst h'
      intro h3
      simp at h3

theorem clientInv_closeImpl (code : Option Int) (reason : Option String)
    (s : ClientState) (out : ClientState × List ClientEvent) (hs : ClientInv s)
    (h : closeImpl code reason s = .ok out) : ClientInv out.1 := by
  unfold closeImpl at h
  split at h
  · injection h with h'
    subst h'
    exact hs
  · split at h
    · split at h
      · exact absurd h (by simp)
      · split at h
        · exact absurd h (by simp)
        · exact clientInv_closeValidated _ _ _ _ h
    · exact clientInv_closeValidated _ _ _ _ h

theorem clientInv_step (s : ClientState) (i : ClientInput) (h : ClientInv s) :
    ClientInv (step s i).1 := by
  cases i with
  | frame m =>
      by_cases hl : s.eventSourceLive
      · simp only [step, hl, if_true]
        cases m with
        | websocketError e ts => exact clientInv_handleError e s
        | websocketClosed c r w ts => exact clientInv_handleClose c r w s h
        | sessionSecret sec => intro h3; exact h h3
        | websocketConnected sid ts => intro h3; simp [handleProxyMessage] at h3
        | message d ts => exact h
        | binaryMessage d ts => exact h
        | ping ts => exact h
        | unknown t => exact h
      · simp only [step, hl, if_false]
        exact h
  | userClose code reason =>
      simp only [step]
      cases hres : closeImpl code reason s with
      | ok out =>
          simp only [hres]
          exact clientInv_closeImpl code reason s out h hres
      | error e =>
          simp only [hres]
          exact h
  | userSend d =>
      simp only [step]
      split
      · exact h
      · split
        · exact clientInv_handleClose _ _ _ s h
        · exact h
  | closeResult c r w => exact clientInv_handleClose c r w s h
  | sendFailed m => exact clientInv_handleClose _ _ _ s h
  | sseError =>
      simp only [step]
      split
      · split
        · exact h
        · split
          · exact h
          · split
            · exact clientInv_handleClose _ _ _ s h
            · exact clientInv_handleError _ s
      · exact h
  | pageUnload => intro _; rfl

theorem clientInv_run (s : ClientState) (t : List ClientInput) (h : ClientInv s) :
    ClientInv (run s t).1 := by
  induction t generalizing s with
  | nil => exact h
  | cons i rest ih =>
      simp only [run]
      exact ih (step s i).1 (clientInv_step s i h)

theorem countCloseEvents_nil : countCloseEvents [] = 0 := rfl

theorem countCloseEvents_close (c : Int) (r : String) (w : Bool) :
    countCloseEvents [ClientEvent.closeEvent c r w] = 1 := rfl

theorem countCloseEvents_error (e : String) :
    countCloseEvents [ClientEvent.errorEvent e] = 0 := rfl

theorem countCloseEvents_open : countCloseEvents [ClientEvent.openEvent] = 0 := rfl

theorem countCloseEvents_msg (d : MessageData) :
    countCloseEvents [ClientEvent.messageEvent d] = 0 := rfl

theorem handleClose_budget (c : Int) (r : String) (w : Bool) (s : ClientState) :
    countCloseEvents (handleClose c r w s).2 + closeBudget (handleClose c r w s).1 ≤
      closeBudget s := by
  unfold handleClose closeBudget
  split
  · simp_all [countCloseEvents_nil]
  · simp_all [countCloseEvents_close]

theorem handleError_budget (e : String) (s : ClientState) :
    countCloseEvents (handleError e s).2 + closeBudget (handleError e s).1 ≤
      closeBudget s := by
  have h1 : (handleError e s).1.readyState = 3 := rfl
  have h2 : countCloseEvents (handleError e s).2 = 0 := rfl
  simp [closeBudget, h1, h2]

theorem closeValidated_budget (code : Option Int) (reason : Option String)
    (s : ClientState) (out : ClientState × List ClientEvent)
    (hs : s.readyState ≠ 3)
    (h : closeImpl.closeValidated code reason s = .ok out) :
    countCloseEvents out.2 + closeBudget out.1 ≤ closeBudget s := by
  have hb : closeBudget s = 1 := by simp [closeBudget, hs]
  rw [hb]
  unfold closeImpl.closeValidated at h
  split at h
  · injection h with h'
    subst h'
    have := handleClose_budget (jsCloseCodeOr1000 code) (reason.getD "") true
      { s with userInitiatedClose := true, readyState := 2 }
    simp only [closeBudget] at this
    simpa using this
  · split at h
    · injection h with h'
      subst h'
      have := handleClose_budget 1006 "No session secret available" false
        { s with userInitiatedClose := true, readyState := 2 }
      simp only [closeBudget] at this
      simpa using this
    · injection h with h'
      subst h'
      simp [countCloseEvents_nil, closeBudget]

theorem closeImpl_budget (code : Option Int) (reason : Option String)
    (s : ClientState) (out : ClientState × List ClientEvent)
    (h : closeImpl code reason s = .ok out) :
    countCloseEvents out.2 + closeBudget out.1 ≤ closeBudget s := by
  unfold closeImpl at h
  split at h
  · injection h with h'
    subst h'
    simp [countCloseEvents_nil]
  · rename_i hguard
    have hs : s.readyState ≠ 3 := by
      intro h3
      exact hguard (Or.inl h3)
    split at h
    · split at h
      · exact absurd h (by simp)
      · split at h
        · exact absurd h (by simp)
        · exact closeValidated_budget _ _ _ _ hs h
    · exact closeValidated_budget _ _ _ _ hs h

theorem step_budget (s : ClientState) (i : ClientInput) (h : ClientInv s) :
    countCloseEvents (step s i).2 + closeBudget (step s i).1 ≤ closeBudget s := by
  cases i with
  | frame m =>
      by_cases hl : s.eventSourceLive
      · simp only [step, hl, if_true]
        cases m with
        | websocketError e ts => exact handleError_budget e s
        | websocketClosed c r w ts => exact handleClose_budget c r w s
        | sessionSecret sec =>
            simp [handleProxyMessage, countCloseEvents, closeBudget]
        | websocketConnected sid ts =>
            have h3 : s.readyState ≠ 3 := by
              intro h3
              simp [h h3] at hl
            simp [handleProxyMessage, countCloseEvents_open, closeBudget, h3]
        | message d ts => simp [handleProxyMessage, countCloseEvents_msg, closeBudget]
        | binaryMessage d ts =>
            simp [handleProxyMessage, countCloseEvents_msg, closeBudget]
        | ping ts => simp [handleProxyMessage, countCloseEvents_nil, closeBudget]
        | unknown t => simp [handleProxyMessage, countCloseEvents_nil, closeBudget]
      · simp only [step, hl, if_false]
        simp [countCloseEvents_nil, closeBudget]
  | userClose code reason =>
      simp only [step]
      cases hres : closeImpl code reason s with
      | ok out =>
          simp only [hres]
          exact closeImpl_budget code reason s out hres
      | error e =>
          simp only [hres]
          simp [countCloseEvents_nil, closeBudget]
  | userSend d =>
      simp only [step]
      split
      · simp [countCloseEvents_nil, closeBudget]
      · split
        · exact handleClose_budget _ _ _ s
        · simp [countCloseEvents_nil, closeBudget]
  | closeResult c r w => exact handleClose_budget c r w s
  | sendFailed m => exact handleClose_budget _ _ _ s
  | sseError =>
      simp only [step]
      split
      · split
        · simp [countCloseEvents_nil, closeBudget]
        · split
          · simp [countCloseEvents_nil, closeBudget]
          · split
            · exact handleClose_budget _ _ _ s
            · exact handleError_budget _ s
      · simp [countCloseEvents_nil, closeBudget]
  | pageUnload =>
      simp [step, countCloseEvents_nil, closeBudget]

theorem run_budget (s : ClientState) (t : List ClientInput) (h : ClientInv s) :
    countCloseEvents (run s t).2 + closeBudget (run s t).1 ≤ closeBudget s := by
  induction t generalizing s with
  | nil => simp [run, countCloseEvents_nil]
  | cons i rest ih =>
      simp only [run]
      have h1 := step_budget s i h
      have h2 := ih (step s i).1 (clientInv_step s i h)
      have hcount : countCloseEvents ((step s i).2 ++ (run (step s i).1 rest).2) =
          countCloseEvents (step s i).2 + countCloseEvents (run (step s i).1 rest).2 := by
        simp [countCloseEvents, List.countP_append]
      simp only [hcount]
      omega

theorem bound_init : readyStateBound initClientState := by
  simp [readyStateBound, initClientState]

theorem bound_handleClose (c : Int) (r : String) (w : Bool) (s : ClientState)
    (h : readyStateBound s) : readyStateBound (handleClose c r w s).1 := by
  unfold handleClose
  split
  · exact h
  · simp [readyStateBound]

theorem bound_handleError (e : String) (s : ClientState) :
    readyStateBound (handleError e s).1 := by
  simp [readyStateBound, handleError]

theorem bound_closeValidated (code : Option Int) (reason : Option String)
    (s : ClientState) (out : ClientState × List ClientEvent)
    (h : closeImpl.closeValidated code reason s = .ok out) : readyStateBound out.1 := by
  unfold closeImpl.closeValidated at h
  split at h
  · injection h with h'
    subst h'
    apply bound_handleClose
    simp [readyStateBound]
  · split at h
    · injection h with h'
      subst h'
      apply bound_handleClose
      simp [readyStateBound]
    · injection h with h'
      subst h'
      simp [readyStateBound]

theorem bound_closeImpl (code : Option Int) (reason : Option String)
    (s : ClientState) (out : ClientState × List ClientEvent) (hs : readyStateBound s)
    (h : closeImpl code reason s = .ok out) : readyStateBound out.1 := by
  unfold closeImpl at h
  split at h
  · injection h with h'
    subst h'
    exact hs
  · split at h
    · split at h
      · exact absurd h (by simp)
      · split at h
        · exact absurd h (by simp)
        · exact bound_closeValidated _ _ _ _ h
    · exact bound_closeValidated _ _ _ _ h

theorem bound_step (s : ClientState) (i : ClientInput) (h : readyStateBound s) :
    readyStateBound (step s i).1 := by
  cases i with
  | frame m =>
      by_cases hl : s.eventSourceLive
      · simp only [step, hl, if_true]
        cases m with
        | websocketError e ts => exact bound_handleError e s
        | websocketClosed c r w ts => exact bound_handleClose c r w s h
        | sessionSecret sec => exact h
        | websocketConnected sid ts => simp [handleProxyMessage, readyStateBound]
        | message d ts => exact h
        | binaryMessage d ts => exact h
        | ping ts => exact h
        | unknown t => exact h
      · simp only [step, hl, if_false]
        exact h
  | userClose code reason =>
      simp only [step]
      cases hres : closeImpl code reason s with
      | ok out =>
          simp only [hres]
          exact bound_closeImpl code reason s out h hres
      | error e =>
          simp only [hres]
          exact h
  | userSend d =>
      simp only [step]
      split
      · exact h
      · split
        · exact bound_handleClose _ _ _ s h
        · exact h
  | closeResult c r w => exact bound_handleClose c r w s h
  | sendFailed m => exact bound_handleClose _ _ _ s h
  | sseError =>
      simp only [step]
      split
      · split
        · exact h
        · split
          · exact h
          · split
            · exact bound_handleClose _ _ _ s h
            · exact bound_handleError _ s
      · exact h
  | pageUnload => exact h

theorem bound_run (s : ClientState) (t : List ClientInput) (h : readyStateBound s) :
    readyStateBound (run s t).1 := by
  induction t generalizing s with
  | nil => exact h
  | cons i rest ih =>
      simp only [run]
      exact ih (step s i).1 (bound_step s i h)

theorem handleClose_readyState_three (c : Int) (r : String) (w : Bool) (s : ClientState)
    (h : s.readyState ≠ 3) : (handleClose c r w s).1.readyState = 3 := by
  unfold handleClose
  rw [if_neg h]

theorem handleClose_readyState_mono (c : Int) (r : String) (w : Bool) (s : ClientState)
    (h : readyStateBound s) : s.readyState ≤ (handleClose c r w s).1.readyState := by
  unfold handleClose
  split
  · exact le_refl _
  · unfold readyStateBound at h
    simpa using h

theorem step_readyState_mono (s : ClientState) (i : ClientInput)
    (hinv : ClientInv s) (hb : readyStateBound s) :
    s.readyState ≤ (step s i).1.readyState ∨
      (s.readyState = 2 ∧ isConnectedFrame i = true ∧ (step s i).1.readyState = 1) := by
  cases i with
  | frame m =>
      by_cases hl : s.eventSourceLive
      · simp only [step, hl, if_true]
        cases m with
        | websocketError e ts =>
            left
            have h3 : (handleProxyMessage (SSEMessage.websocketError e ts) s).1.readyState = 3 :=
              rfl
            unfold readyStateBound at hb
            omega
        | websocketClosed c r w ts => exact Or.inl (handleClose_readyState_mono c r w s hb)
        | sessionSecret sec => exact Or.inl (le_refl _)
        | websocketConnected sid ts =>
            have h3 : s.readyState ≠ 3 := by
              intro h3
              simp [hinv h3] at hl
            by_cases h2 : s.readyState = 2
            · right
              refine ⟨h2, rfl, ?_⟩
              simp [handleProxyMessage]
            · left
              unfold readyStateBound at hb
              simp only [handleProxyMessage]
              omega
        | message d ts => exact Or.inl (le_refl _)
        | binaryMessage d ts => exact Or.inl (le_refl _)
        | ping ts => exact Or.inl (le_refl _)
        | unknown t => exact Or.inl (le_refl _)
      · simp only [step, hl, if_false]
        exact Or.inl (le_refl _)
  | userClose code reason =>
      left
      simp only [step]
      cases hres : closeImpl code reason s with
      | ok out =>
          simp only [hres]
          unfold closeImpl at hres
          split at hres
          · injection hres with h'
            subst h'
            exact le_refl _
          · rename_i hguard
            have hs2 : s.readyState ≠ 2 := fun h => hguard (Or.inr h)
            have hs3 : s.readyState ≠ 3 := fun h => hguard (Or.inl h)
            have hle : s.readyState ≤ 1 := by
              unfold readyStateBound at hb
              omega
            have hval : ∀ out', closeImpl.closeValidated code reason s = .ok out' →
                s.readyState ≤ out'.1.readyState := by
              intro out' hv
              unfold closeImpl.closeValidated at hv
              split at hv
              · injection hv with h'
                subst h'
                rw [handleClose_readyState_three _ _ _ _ (by simp)]
                omega
              · split at hv
                · injection hv with h'
                  subst h'
                  rw [handleClose_readyState_three _ _ _ _ (by simp)]
                  omega
                · injection hv with h'
                  subst h'
                  show s.readyState ≤ 2
                  omega
            split at hres
            · split at hres
              · exact absurd hres (by simp)
              · split at hres
                · exact absurd hres (by simp)
                · exact hval out hres
            · exact hval out hres
      | error e =>
          simp only [hres]
          exact le_refl _
  | userSend d =>
      left
      simp only [step]
      split
      · exact le_refl _
      · split
        · exact handleClose_readyState_mono _ _ _ s hb
        · exact le_refl _
  | closeResult c r w => exact Or.inl (handleClose_readyState_mono c r w s hb)
  | sendFailed m => exact Or.inl (handleClose_readyState_mono _ _ _ s hb)
  | sseError =>
      left
      simp only [step]
      split
      · split
        · exact le_refl _
        · split
          · exact le_refl _
          · split
            · exact handleClose_readyState_mono _ _ _ s hb
            · unfold readyStateBound at hb
              simp [handleError]
              omega
      · exact le_refl _
  | pageUnload => exact Or.inl (le_refl _)

/-- C1 — corrected.  Amended claim: from the initial state, along every
sequence of decoded SSE frames and user calls, `readyState` never moves
backwards at any step, with a single exception: a `websocket-connected`
frame processed while the state is CLOSING (the stream is still live
while a user close request is in flight) sets `readyState` back to OPEN,
because `handleProxyMessage` assigns `WebSocket.OPEN` unconditionally.
A regression out of CLOSED is impossible because entering CLOSED always
closes the `EventSource`, after which no frame is delivered. -/
theorem c1_readyState_monotonic_amended : ∀ (t : List ClientInput) (i : ClientInput),
    (run initClientState t).1.readyState ≤ (step (run initClientState t).1 i).1.readyState ∨
      ((run initClientState t).1.readyState = 2 ∧ isConnectedFrame i = true ∧
        (step (run initClientState t).1 i).1.readyState = 1) := by
  intro t i
  exact step_readyState_mono (run initClientState t).1 i
    (clientInv_run initClientState t clientInv_init)
    (bound_run initClientState t bound_init)

/-- C1 — counterexample to the claim as stated: after the backend
connects (OPEN) and the user calls `close()` with a session secret in
hand (CLOSING, close POST in flight), a second `websocket-connected`
frame on the still-open stream moves `readyState` from CLOSING back to
OPEN — the state machine does regress. -/
theorem c1_counterexample :
    (run initClientState [.frame (.sessionSecret "sec"),
        .frame (.websocketConnected "sid" 0), .userClose none none]).1.readyState = 2 ∧
    (run initClientState [.frame (.sessionSecret "sec"),
        .frame (.websocketConnected "sid" 0), .userClose none none,
        .frame (.websocketConnected "sid" 0)]).1.readyState = 1 := by
  constructor <;> rfl

theorem closeImpl_some (c : Int) (reason : Option String) (s : ClientState)
    (hg : ¬(s.readyState = 3 ∨ s.readyState = 2)) :
    closeImpl (some c) reason s =
      (if c = 1001 then Except.error "invalid code"
       else if c ≠ 1000 ∧ (c < 3000 ∨ c > 4999) then Except.error "invalid code"
       else closeImpl.closeValidated (some c) reason s) := by
  unfold closeImpl
  rw [if_neg hg]

theorem closeImpl_none (reason : Option String) (s : ClientState)
    (hg : ¬(s.readyState = 3 ∨ s.readyState = 2)) :
    closeImpl none reason s = closeImpl.closeValidated none reason s := by
  unfold closeImpl
  rw [if_neg hg]

theorem closeValidated_isOk (code : Option Int) (reason : Option String)
    (s : ClientState) : isCloseError (closeImpl.closeValidated code reason s) = false := by
  unfold closeImpl.closeValidated
  split
  · rfl
  · split <;> rfl

/-- C2 — corrected.  Amended claim: `close(code)` throws synchronously
exactly when `readyState` is neither CLOSING nor CLOSED and the code is
outside `\x7b1000\x7d ∪ [3000, 4999]`; when it throws, the state is unchanged
and no event fires.  From CLOSING or CLOSED, `close()` is a no-op before
validation runs, so `close(1001)` does NOT throw there — the claim's
"from any readyState" fails. -/
theorem c2_close_validation_amended : ∀ (code : Option Int) (reason : Option String)
    (s : ClientState),
    (isCloseError (closeImpl code reason s) = true ↔
      (s.readyState ≠ 2 ∧ s.readyState ≠ 3 ∧
        ∃ c, code = some c ∧ c ≠ 1000 ∧ (c < 3000 ∨ 4999 < c))) ∧
    (isCloseError (closeImpl code reason s) = true →
      step s (.userClose code reason) = (s, [])) := by
  intro code reason s
  constructor
  · by_cases hg : s.readyState = 3 ∨ s.readyState = 2
    · unfold closeImpl
      rw [if_pos hg]
      simp only [isCloseError]
      constructor
      · intro habs
        simp at habs
      · rintro ⟨h2, h3, -⟩
        rcases hg with hg | hg
        · exact (h3 hg).elim
        · exact (h2 hg).elim
    · have h3 : s.readyState ≠ 3 := fun h => hg (Or.inl h)
      have h2 : s.readyState ≠ 2 := fun h => hg (Or.inr h)
      cases code with
      | none =>
          rw [closeImpl_none reason s hg, closeValidated_isOk]
          simp
      | some c =>
          rw [closeImpl_some c reason s hg]
          by_cases h1001 : c = 1001
          · subst h1001
            rw [if_pos rfl]
            simp only [isCloseError]
            exact ⟨fun _ => ⟨h2, h3, 1001, rfl, by decide, Or.inl (by decide)⟩,
              fun _ => trivial⟩
          · by_cases hrange : c ≠ 1000 ∧ (c < 3000 ∨ c > 4999)
            · rw [if_neg h1001, if_pos hrange]
              simp only [isCloseError]
              exact ⟨fun _ => ⟨h2, h3, c, rfl, hrange.1, hrange.2⟩, fun _ => trivial⟩
            · rw [if_neg h1001, if_neg hrange, closeValidated_isOk]
              constructor
              · intro habs
                simp at habs
              · rintro ⟨-, -, c', hc', hne, hout⟩
                injection hc' with hc'
                subst hc'
                exact (hrange ⟨hne, by omega⟩).elim
  · intro herr
    simp only [step]
    cases hres : closeImpl code reason s with
    | ok out =>
        rw [hres] at herr
        simp [isCloseError] at herr
    | error e => simp only [hres]

/-- C2 — counterexample to the claim as stated: with `readyState` CLOSED,
`close(1001)` returns normally (the early no-op guard runs before code
validation), while the claim requires it to throw from any readyState. -/
theorem c2_counterexample :
    closeImpl (some 1001) none
      { readyState := 3, sessionSecret := none, userInitiatedClose := false,
        isWebSocketConnected := false, eventSourceLive := false, pageUnloading := false } =
      .ok ({ readyState := 3, sessionSecret := none, userInitiatedClose := false,
             isWebSocketConnected := false, eventSourceLive := false,
             pageUnloading := false },
        []) := rfl

/-- C2 — witness: in the initial CONNECTING state, `close(1001)` does
throw, and the thrown call leaves the machine unchanged with no events. -/
theorem c2_witness :
    isCloseError (closeImpl (some 1001) none initClientState) = true ∧
    step initClientState (.userClose (some 1001) none) = (initClientState, []) := by
  have h := c2_close_validation_amended (some 1001) none initClientState
  have ht : isCloseError (closeImpl (some 1001) none initClientState) = true :=
    h.1.mpr ⟨by simp [initClientState], by simp [initClientState],
      1001, rfl, by decide, Or.inl (by decide)⟩
  exact ⟨ht, h.2 ht⟩

theorem mem_handleClose {c c' : Int} {r r' : String} {w w' : Bool} {s : ClientState}
    (h : ClientEvent.closeEvent c r w ∈ (handleClose c' r' w' s).2) :
    c = c' ∧ r = r' ∧ w = w' := by
  unfold handleClose at h
  split at h
  · simp at h
  · simp at h
    exact h

theorem closeValidated_closeEvent {co : Option Int} {re : Option String} {s : ClientState}
    {out : ClientState × List ClientEvent} {c : Int} {r : String} {w : Bool}
    (hres : closeImpl.closeValidated co re s = .ok out)
    (hmem : ClientEvent.closeEvent c r w ∈ out.2) :
    (w = true ∧ c = jsCloseCodeOr1000 co) ∨ (c = 1006 ∧ w = false) := by
  unfold closeImpl.closeValidated at hres
  split at hres
  · injection hres with h'
    subst h'
    obtain ⟨hc, hr, hw⟩ := mem_handleClose hmem
    exact Or.inl ⟨hw, hc⟩
  · split at hres
    · injection hres with h'
      subst h'
      obtain ⟨hc, hr, hw⟩ := mem_handleClose hmem
      exact Or.inr ⟨hc, hw⟩
    · injection hres with h'
      subst h'
      simp at hmem

theorem closeImpl_closeEvent {co : Option Int} {re : Option String} {s : ClientState}
    {out : ClientState × List ClientEvent} {c : Int} {r : String} {w : Bool}
    (hres : closeImpl co re s = .ok out)
    (hmem : ClientEvent.closeEvent c r w ∈ out.2) :
    (w = true ∧ c = jsCloseCodeOr1000 co) ∨ (c = 1006 ∧ w = false) := by
  unfold closeImpl at hres
  split at hres
  · injection hres with h'
    subst h'
    simp at hmem
  · split at hres
    · split at hres
      · exact absurd hres (by simp)
      · split at hres
        · exact absurd hres (by simp)
        · exact closeValidated_closeEvent hres hmem
    · exact closeValidated_closeEvent hres hmem

/-- C3 — corrected.  Amended claim: close events whose code comes from
the backend or the proxy satisfy `wasClean = (code ∈ [1000, 1003])`: the
proxy's backend-close relay computes exactly that, and the close-request
response either reports the authoritative code with that formula or the
synthetic `(1006, wasClean = false)` timeout result, which also satisfies
it.  On the client, every dispatched close event either echoes such a
frame or response verbatim, is an abnormal `(1006, wasClean = false)`
synthesis (also satisfying the formula), or is the local clean close
synthesized by `close()` before the backend link opens — that one carries
`wasClean = true` with the caller's requested code (default 1000) and
violates the formula exactly when the code lies in `[3000, 4999]`. -/
theorem c3_wasClean_amended :
    (∀ (code : Int) (reason : String) (timestamp : Int),
      backendCloseFrame code reason timestamp =
        SSEMessage.websocketClosed code reason (decide (1000 ≤ code ∧ code ≤ 1003))
          timestamp) ∧
    (∀ arrival, (closeRequestResponse arrival).wasClean =
      decide (1000 ≤ (closeRequestResponse arrival).code ∧
        (closeRequestResponse arrival).code ≤ 1003)) ∧
    (∀ (s : ClientState) (i : ClientInput) (c : Int) (r : String) (w : Bool),
      ClientEvent.closeEvent c r w ∈ (step s i).2 →
      (∃ ts, i = .frame (.websocketClosed c r w ts)) ∨
      i = .closeResult c r w ∨
      (∃ co re, i = .userClose co re ∧ w = true ∧ c = jsCloseCodeOr1000 co) ∨
      (c = 1006 ∧ w = false)) := by
  refine ⟨fun c r ts => rfl, ?_, ?_⟩
  · intro arrival
    cases arrival with
    | some p => rfl
    | none => rfl
  · intro s i c r w hmem
    cases i with
    | frame m =>
        by_cases hl : s.eventSourceLive
        · simp only [step, hl, if_true] at hmem
          cases m with
          | websocketClosed c' r' w' ts =>
              obtain ⟨hc, hr, hw⟩ := mem_handleClose hmem
              subst hc
              subst hr
              subst hw
              exact Or.inl ⟨ts, rfl⟩
          | websocketError e ts => simp [handleProxyMessage, handleError] at hmem
          | sessionSecret sec => simp [handleProxyMessage] at hmem
          | websocketConnected sid ts => simp [handleProxyMessage] at hmem
          | message d ts => simp [handleProxyMessage] at hmem
          | binaryMessage d ts => simp [handleProxyMessage] at hmem
          | ping ts => simp [handleProxyMessage] at hmem
          | unknown t => simp [handleProxyMessage] at hmem
        · simp only [step, hl, if_false] at hmem
          simp at hmem
    | userClose co re =>
        simp only [step] at hmem
        cases hres : closeImpl co re s with
        | ok out =>
            rw [hres] at hmem
            rcases closeImpl_closeEvent hres hmem with h | h
            · exact Or.inr (Or.inr (Or.inl ⟨co, re, rfl, h.1, h.2⟩))
            · exact Or.inr (Or.inr (Or.inr h))
        | error e =>
            rw [hres] at hmem
            simp at hmem
    | userSend d =>
        simp only [step] at hmem
        split at hmem
        · simp at hmem
        · split at hmem
          · obtain ⟨hc, hr, hw⟩ := mem_handleClose hmem
            exact Or.inr (Or.inr (Or.inr ⟨hc, hw⟩))
          · simp at hmem
    | closeResult c' r' w' =>
        simp only [step] at hmem
        obtain ⟨hc, hr, hw⟩ := mem_handleClose hmem
        subst hc
        subst hr
        subst hw
        exact Or.inr (Or.inl rfl)
    | sendFailed msg =>
        simp only [step] at hmem
        obtain ⟨hc, hr, hw⟩ := mem_handleClose hmem
        exact Or.inr (Or.inr (Or.inr ⟨hc, hw⟩))
    | sseError =>
        simp only [step] at hmem
        split at hmem
        · split at hmem
          · simp at hmem
          · split at hmem
            · simp at hmem
            · split at hmem
              · obtain ⟨hc, hr, hw⟩ := mem_handleClose hmem
                exact Or.inr (Or.inr (Or.inr ⟨hc, hw⟩))
              · simp [handleError] at hmem
        · simp at hmem
    | pageUnload => simp [step] at hmem

/-- C3 — counterexample to the claim as stated: calling `close(3000,
"bye")` before the backend link opens dispatches a close event with code
3000 and `wasClean = true`, although `3000 ∉ [1000, 1003]`. -/
theorem c3_counterexample :
    closeImpl (some 3000) (some "bye") initClientState =
      .ok ({ readyState := 3, sessionSecret := none, userInitiatedClose := true,
             isWebSocketConnected := false, eventSourceLive := false,
             pageUnloading := false },
        [.closeEvent 3000 "bye" true]) ∧
    ¬((1000 : Int) ≤ 3000 ∧ (3000 : Int) ≤ 1003) := ⟨rfl, by decide⟩

/-- C3 — witness: a concrete dispatched close event (the resolution of a
close POST with the synthetic abnormal result) classified by the amended
theorem. -/
theorem c3_witness :
    ClientEvent.closeEvent 1006 "x" false ∈
      (step initClientState (.closeResult 1006 "x" false)).2 ∧
    ((∃ ts, ClientInput.closeResult 1006 "x" false =
        .frame (.websocketClosed 1006 "x" false ts)) ∨
      ClientInput.closeResult 1006 "x" false = .closeResult 1006 "x" false ∨
      (∃ co re, ClientInput.closeResult 1006 "x" false = .userClose co re ∧
        false = true ∧ (1006 : Int) = jsCloseCodeOr1000 co) ∨
      ((1006 : Int) = 1006 ∧ false = false)) := by
  have hmem : ClientEvent.closeEvent 1006 "x" false ∈
      (step initClientState (.closeResult 1006 "x" false)).2 := by
    simp [step, handleClose, initClientState]
  exact ⟨hmem, c3_wasClean_amended.2.2 initClientState
    (.closeResult 1006 "x" false) 1006 "x" false hmem⟩

/-- C4 — confirmed: when the allowlist policy denies the requested
backend of a stream-open request, the proxy answers 403, registers no
session, and constructs no backend connection. -/
theorem c4_deny_forbidden : ∀ (config : ProxyConfig) (clients : Registry)
    (sessionId : String) (backendUrl : Option URLParts) (newClient : ProxyClient),
    isBackendAllowed config backendUrl = false →
    handleSSEConnection config clients sessionId (some backendUrl) newClient =
      { status := 403, clients := clients, backendConnectionCreated := false } := by
  intro config clients sessionId backendUrl newClient h
  simp [handleSSEConnection, h]

/-- C4 — witness: a host absent from an empty allow-list, with both
overrides off, is denied with a 403 and an unchanged (empty) registry. -/
theorem c4_witness :
    isBackendAllowed
      { allowedHosts := [], allowAnyLocalhostPort := false,
        dangerouslyAllowAnyHost := false }
      (some { protocol := "ws:", hostname := "evil.example", port := "" }) = false ∧
    handleSSEConnection
      { allowedHosts := [], allowAnyLocalhostPort := false,
        dangerouslyAllowAnyHost := false } [] "s1"
      (some (some { protocol := "ws:", hostname := "evil.example", port := "" }))
      { wsReadyState := 0, lastActivity := 0 } =
      { status := 403, clients := [], backendConnectionCreated := false } :=
  ⟨rfl, c4_deny_forbidden _ [] "s1"
    (some { protocol := "ws:", hostname := "evil.example", port := "" })
    { wsReadyState := 0, lastActivity := 0 } rfl⟩

/-- C5 — confirmed: the send endpoint answers 404 for an unknown session,
503 when the backend socket is not OPEN (nothing forwarded), 400 when the
body fails codec validation (nothing forwarded), and otherwise forwards
the decoded frame, refreshes `lastActivity`, and answers 200. -/
theorem c5_send_endpoint : ∀ (clients : Registry) (sessionId : String)
    (body : Option JsonV) (now : Nat),
    (Registry.lookup clients sessionId = none →
      handleMessageSend clients (some sessionId) body now =
        { status := 404, forwarded := none, clients := clients }) ∧
    (∀ client, Registry.lookup clients sessionId = some client →
      client.wsReadyState ≠ 1 →
      handleMessageSend clients (some sessionId) body now =
        { status := 503, forwarded := none, clients := clients }) ∧
    (∀ client e, Registry.lookup clients sessionId = some client →
      client.wsReadyState = 1 →
      decodeMessageRequest body = .error e →
      handleMessageSend clients (some sessionId) body now =
        { status := 400, forwarded := none, clients := clients }) ∧
    (∀ client m, Registry.lookup clients sessionId = some client →
      client.wsReadyState = 1 →
      decodeMessageRequest body = .ok m →
      (handleMessageSend clients (some sessionId) body now).status = 200 ∧
      (handleMessageSend clients (some sessionId) body now).forwarded =
        some (match m with
          | .text d => .text d
          | .binary d => .binary (decodeBinaryData d)) ∧
      Registry.lookup (handleMessageSend clients (some sessionId) body now).clients
          sessionId = some { client with lastActivity := now }) := by
  intro clients sessionId body now
  refine ⟨?_, ?_, ?_, ?_⟩
  · intro h
    simp [handleMessageSend, h]
  · intro client h hws
    simp [handleMessageSend, h, hws]
  · intro client e h hws hdec
    simp [handleMessageSend, h, hws, hdec]
  · intro client m h hws hdec
    cases m with
    | text d =>
        refine ⟨?_, ?_, ?_⟩ <;>
          simp [handleMessageSend, h, hws, hdec, Registry.lookup_update clients sessionId client _ h]
    | binary d =>
        refine ⟨?_, ?_, ?_⟩ <;>
          simp [handleMessageSend, h, hws, hdec, Registry.lookup_update clients sessionId client _ h]

/-- C5 — witness: a registered session with an OPEN backend socket and a
valid text body is forwarded with refreshed activity and a 200. -/
theorem c5_witness :
    (handleMessageSend [("a", { wsReadyState := 1, lastActivity := 5 })] (some "a")
      (some (JsonV.obj [("type", .str "text"), ("data", .str "hi")])) 7).status = 200 ∧
    (handleMessageSend [("a", { wsReadyState := 1, lastActivity := 5 })] (some "a")
      (some (JsonV.obj [("type", .str "text"), ("data", .str "hi")])) 7).forwarded =
      some (.text "hi") ∧
    Registry.lookup (handleMessageSend [("a", { wsReadyState := 1, lastActivity := 5 })]
        (some "a") (some (JsonV.obj [("type", .str "text"), ("data", .str "hi")])) 7).clients
      "a" = some { wsReadyState := 1, lastActivity := 7 } :=
  (c5_send_endpoint [("a", { wsReadyState := 1, lastActivity := 5 })] "a"
    (some (JsonV.obj [("type", .str "text"), ("data", .str "hi")])) 7).2.2.2
    { wsReadyState := 1, lastActivity := 5 } (.text "hi") rfl rfl rfl

/-- C6 — confirmed: an arbitrary byte sequence (including the empty one)
survives both directions of the binary channel byte-for-byte — client
encodes (`String.fromCharCode` + `btoa`), proxy decodes the validated
request (`decodeMessageRequest` + `Buffer` base64); and proxy encodes
(`Buffer` base64, as posted by `encodeBinaryMessageRequest`), client
decodes (`atob` + `charCodeAt`). -/
theorem c6_binary_roundtrip : ∀ bytes : List (Fin 256),
    (decodeMessageRequest (some (encodeBinaryMessageRequestBrowser bytes)) =
        .ok (.binary (base64EncodeString bytes)) ∧
      decodeBinaryData (base64EncodeString bytes) = bytes.map Fin.val) ∧
    (decodeMessageRequest (some (encodeBinaryMessageRequest bytes)) =
        .ok (.binary (base64EncodeString bytes)) ∧
      decodeBinaryDataBrowser (base64EncodeString bytes) = bytes.map Fin.val) := by
  intro bytes
  have hdec : base64DecodeString (base64EncodeString bytes) = bytes.map Fin.val := by
    unfold base64DecodeString base64EncodeString
    exact base64_roundtrip bytes
  exact ⟨⟨rfl, hdec⟩, ⟨rfl, hdec⟩⟩

/-- C7 — confirmed: along every input trace from the initial state at
most one close event is ever dispatched (`handleClose` is one-shot and
CLOSED is absorbing), and a `close()` call made while CLOSING or CLOSED
is a no-op — it returns without events or state change, so a second
`close()` never produces a second close event or terminal result. -/
theorem c7_single_close :
    (∀ t : List ClientInput, countCloseEvents (run initClientState t).2 ≤ 1) ∧
    (∀ (s : ClientState) (code : Option Int) (reason : Option String),
      s.readyState = 2 ∨ s.readyState = 3 →
      closeImpl code reason s = .ok (s, [])) := by
  constructor
  · intro t
    have h := run_budget initClientState t clientInv_init
    have hb : closeBudget initClientState = 1 := rfl
    rw [hb] at h
    omega
  · intro s code reason h
    unfold closeImpl
    rw [if_pos (Or.symm h)]

/-- C7 — witness: two immediate `close()` calls yield one close event,
and a second `close()` against a CLOSING state is exactly a no-op. -/
theorem c7_witness :
    countCloseEvents (run initClientState [.userClose none none, .userClose none none]).2 ≤ 1 ∧
    closeImpl none none
      { readyState := 2, sessionSecret := none, userInitiatedClose := true,
        isWebSocketConnected := true, eventSourceLive := true, pageUnloading := false } =
      .ok ({ readyState := 2, sessionSecret := none, userInitiatedClose := true,
             isWebSocketConnected := true, eventSourceLive := true,
             pageUnloading := false }, []) :=
  ⟨c7_single_close.1 _, c7_single_close.2 _ none none (Or.inl rfl)⟩

/-- C8 — corrected.  Amended claim: a frame that fails `decodeSSEMessage`
validation — unparsable JSON, a non-object, or a missing or non-string
`type` — always surfaces as an "error" event describing the decoding
failure; but a frame whose `type` is a string outside the known union
passes validation and is dropped with only a console warning (no error
event), and missing or wrong-typed payload fields of known-typed frames
are not validated at all. -/
theorem c8_decode_error_amended : ∀ (raw : Option JsonV) (s : ClientState),
    (∀ e, decodeSSEMessage raw = .error e →
      onSseData raw s =
        ({ s with readyState := 3, eventSourceLive := false },
          [.errorEvent ("Malformed data from proxy: " ++ e)])) ∧
    (∀ v, decodeSSEMessage raw = .ok v →
      onSseData raw s = handleProxyMessage (classifySSE v) s) ∧
    (∀ tag, handleProxyMessage (.unknown tag) s = (s, [])) := by
  intro raw s
  refine ⟨?_, ?_, fun tag => rfl⟩
  · intro e he
    unfold onSseData
    rw [he]
    rfl
  · intro v hv
    unfold onSseData
    rw [hv]

/-- C8 — counterexample to the claim as stated: the schema-violating
frame with the unknown type tag "bogus" passes `decodeSSEMessage` (only
the presence of a string `type` is validated) and is then silently
dropped by the handler's default branch — no error event is dispatched. -/
theorem c8_counterexample :
    decodeSSEMessage (some (.obj [("type", JsonV.str "bogus")])) =
      .ok (.obj [("type", JsonV.str "bogus")]) ∧
    onSseData (some (.obj [("type", JsonV.str "bogus")])) initClientState =
      (initClientState, []) := ⟨rfl, rfl⟩

/-- C8 — witness: unparsable stream data does produce the error event. -/
theorem c8_witness :
    onSseData none initClientState =
      ({ initClientState with readyState := 3, eventSourceLive := false },
        [.errorEvent ("Malformed data from proxy: " ++
          "Failed to decode SSE message: invalid JSON")]) :=
  (c8_decode_error_amended none initClientState).1
    "Failed to decode SSE message: invalid JSON" rfl

/-- C9 — code bug: the implemented health handler ignores the request
entirely (no shared-secret gate exists in it) and always returns the
active-session count, the per-session diagnostics and the uptime, even
when no secret is supplied — contradicting the claim and the package's
own test, which expects `activeConnections` to be absent without the
configured secret. -/
theorem c9_health_not_gated :
    (∀ (secretParam : Option String) (clients : Registry) (uptimeNow : Nat),
      (handleHealthCheck secretParam clients uptimeNow).status = "healthy" ∧
      (handleHealthCheck secretParam clients uptimeNow).activeConnections =
        some clients.length ∧
      (handleHealthCheck secretParam clients uptimeNow).connections ≠ none ∧
      (handleHealthCheck secretParam clients uptimeNow).uptime = some uptimeNow) ∧
    handleHealthCheck none [("s1", { wsReadyState := 1, lastActivity := 42 })] 7 =
      { status := "healthy", activeConnections := some 1,
        connections := some [{ sessionId := "s1", websocketState := "open", lastActivity := 42 }],
        uptime := some 7 } := by
  refine ⟨fun secretParam clients uptimeNow => ⟨rfl, rfl, ?_, rfl⟩, rfl⟩
  simp [handleHealthCheck]

/-- C10 — confirmed: a close request for an existing session whose
backend socket is already CLOSED issues neither `close` nor `terminate`
(only CONNECTING is terminated and only OPEN is closed), and — since a
closed socket emits no further `close` event, so the one-shot wait can
only be resolved by its timeout (`arrival = none`) — the response is the
timeout path's `(1006, "Close timeout", wasClean = false)` after 5
seconds, with HTTP status 200. -/
theorem c10_close_request_closed_socket : ∀ (clients : Registry) (sessionId : String)
    (client : ProxyClient) (data : JsonV),
    Registry.lookup clients sessionId = some client →
    client.wsReadyState = 3 →
    (∀ arrival,
      (handleCloseRequest clients (some sessionId) (some data) arrival).action =
        .noAction ∧
      (handleCloseRequest clients (some sessionId) (some data) arrival).status = 200) ∧
    (handleCloseRequest clients (some sessionId) (some data) none).response =
      some { code := 1006, reason := "Close timeout", wasClean := false } := by
  intro clients sessionId client data h hws
  refine ⟨fun arrival => ⟨?_, ?_⟩, ?_⟩ <;>
    simp [handleCloseRequest, h, closeRequestAction, closeRequestResponse, hws]

/-- C10 — witness: a concrete session whose socket is CLOSED. -/
theorem c10_witness :
    (handleCloseRequest [("a", { wsReadyState := 3, lastActivity := 0 })] (some "a")
      (some (JsonV.obj [])) none).action = .noAction ∧
    (handleCloseRequest [("a", { wsReadyState := 3, lastActivity := 0 })] (some "a")
      (some (JsonV.obj [])) none).response =
      some { code := 1006, reason := "Close timeout", wasClean := false } :=
  ⟨(c10_close_request_closed_socket [("a", { wsReadyState := 3, lastActivity := 0 })]
      "a" { wsReadyState := 3, lastActivity := 0 } (JsonV.obj []) rfl rfl).1 none |>.1,
    (c10_close_request_closed_socket [("a", { wsReadyState := 3, lastActivity := 0 })]
      "a" { wsReadyState := 3, lastActivity := 0 } (JsonV.obj []) rfl rfl).2⟩
